import Mathlib

/-!
Verification development for the chat-image-processor repository
(`src/main.py`).  The two functions of the program, `initialize_gemini`
and `process_image`, are shallowly embedded as pure Lean functions.
Outcomes of the external calls (temp-file creation/write, the
`genai.upload_file` call, the `chat.send_message` call) are supplied by
an explicit `Oracle`; the `json.loads` call is modelled by an executable
JSON scanner (`jsonLoads`) that follows CPython's `json` package
(`json/decoder.py`, `json/scanner.py`), including its error messages and
error positions, since the program returns `str(e)` of any raised
exception to its caller.
-/

namespace ChatImage

/-- Python values produced by `json.loads`.  Numbers keep their matched
lexeme (the program never interprets the numeric value); objects are
Python dicts built by `dict(pairs)`: first-occurrence key order, last
value wins. -/
inductive JsonValue where
  | null
  | bool (b : Bool)
  | num (lexeme : String)
  | str (s : String)
  | arr (elems : List JsonValue)
  | obj (fields : List (String × JsonValue))
deriving Repr

/-- A `json.JSONDecodeError` before formatting: the bare message and the
code-point position in the document.  `str(e)` is `DecodeErr.render`. -/
structure DecodeErr where
  msg : String
  pos : Nat
deriving DecidableEq, Repr

/-- Whitespace skipped by `json`'s `WHITESPACE` regex `[ \t\n\r]*`. -/
def isJsonWs (c : Char) : Bool :=
  c == ' ' || c == '\t' || c == '\n' || c == '\r'

/-- First index at or after `i` holding a non-whitespace character (or the
end of input): `WHITESPACE.match(s, i).end()`. -/
def skipWsAux : Nat → List Char → Nat → Nat
  | 0, _, i => i
  | f + 1, cs, i =>
    match cs.get? i with
    | some c => if isJsonWs c then skipWsAux f cs (i + 1) else i
    | none => i

def skipWs (cs : List Char) (i : Nat) : Nat := skipWsAux (cs.length + 1) cs i

def hexDigit? (c : Char) : Option Nat :=
  if '0' ≤ c ∧ c ≤ '9' then some (c.toNat - '0'.toNat)
  else if 'a' ≤ c ∧ c ≤ 'f' then some (c.toNat - 'a'.toNat + 10)
  else if 'A' ≤ c ∧ c ≤ 'F' then some (c.toNat - 'A'.toNat + 10)
  else none

/-- The `\uXXXX` reader of the scanner (`_decode_uXXXX` /
`scanstring_unicode` in the C accelerator that `json.loads` actually
uses): with `pos` the index of the letter `u`, reads the four characters
after it as strict hexadecimal, else raises `Invalid \uXXXX escape` at
`pos`. -/
def decodeU4 (cs : List Char) (pos : Nat) : Except DecodeErr Nat :=
  match cs.get? (pos + 1), cs.get? (pos + 2), cs.get? (pos + 3), cs.get? (pos + 4) with
  | some a, some b, some c, some d =>
    match hexDigit? a, hexDigit? b, hexDigit? c, hexDigit? d with
    | some x, some y, some z, some w => .ok (((x * 16 + y) * 16 + z) * 16 + w)
    | _, _, _, _ => .error ⟨"Invalid \\uXXXX escape", pos⟩
  | _, _, _, _ => .error ⟨"Invalid \\uXXXX escape", pos⟩

/-- The `BACKSLASH` escape table of `json.decoder.py_scanstring`. -/
def backslashMap? (c : Char) : Option Char :=
  if c = '"' then some '"'
  else if c = '\\' then some '\\'
  else if c = '/' then some '/'
  else if c = 'b' then some (Char.ofNat 8)
  else if c = 'f' then some (Char.ofNat 12)
  else if c = 'n' then some '\n'
  else if c = 'r' then some (Char.ofNat 13)
  else if c = 't' then some '\t'
  else none

/-- The string scanner (`scanstring_unicode` of CPython's `_json` C
accelerator, which `json.loads` uses; strict mode).  `begin_` is the
index of the opening quote, `i` the current scan position (initially
`begin_ + 1`).  Surrogate pairs combine as in CPython; a lone surrogate,
which a Python `str` can hold but a Lean `Char` cannot, degrades to
`Char.ofNat`'s fallback — no claim depends on that corner. -/
def scanStringAux : Nat → List Char → Nat → Nat → List Char → Except DecodeErr (String × Nat)
  | 0, _, begin_, _, _ => .error ⟨"Unterminated string starting at", begin_⟩
  | f + 1, cs, begin_, i, acc =>
    match cs.get? i with
    | none => .error ⟨"Unterminated string starting at", begin_⟩
    | some c =>
      if c = '"' then .ok (String.mk acc.reverse, i + 1)
      else if c = '\\' then
        match cs.get? (i + 1) with
        | none => .error ⟨"Unterminated string starting at", begin_⟩
        | some esc =>
          if esc = 'u' then
            match decodeU4 cs (i + 1) with
            | .error e => .error e
            | .ok uni =>
              if 0xd800 ≤ uni ∧ uni ≤ 0xdbff ∧ cs.get? (i + 6) = some '\\' ∧ cs.get? (i + 7) = some 'u' then
                match decodeU4 cs (i + 7) with
                | .error e => .error e
                | .ok uni2 =>
                  if 0xdc00 ≤ uni2 ∧ uni2 ≤ 0xdfff then
                    scanStringAux f cs begin_ (i + 12)
                      (Char.ofNat (0x10000 + ((uni - 0xd800) * 1024 + (uni2 - 0xdc00))) :: acc)
                  else scanStringAux f cs begin_ (i + 6) (Char.ofNat uni :: acc)
              else scanStringAux f cs begin_ (i + 6) (Char.ofNat uni :: acc)
          else
            match backslashMap? esc with
            | some ch => scanStringAux f cs begin_ (i + 2) (ch :: acc)
            | none => .error ⟨"Invalid \\escape", i⟩
      else if c.toNat < 0x20 then
        .error ⟨"Invalid control character at", i⟩
      else scanStringAux f cs begin_ (i + 1) (c :: acc)

/-- Consume `[0-9]*` starting at `i`; returns the index after the run. -/
def digitsFrom : Nat → List Char → Nat → Nat
  | 0, _, i => i
  | f + 1, cs, i =>
    match cs.get? i with
    | some c => if c.isDigit then digitsFrom f cs (i + 1) else i
    | none => i

/-- The optional `(\.\d+)?([eE][-+]?\d+)?` tail of `json.scanner`'s
`NUMBER_RE`, starting at `i` (the index after the integer part). -/
def numTail (cs : List Char) (i : Nat) : Nat :=
  let i2 :=
    match cs.get? i with
    | some c =>
      if c = '.' then
        let j := digitsFrom (cs.length + 1) cs (i + 1)
        if i + 1 < j then j else i
      else i
    | none => i
  match cs.get? i2 with
  | some c =>
    if c = 'e' ∨ c = 'E' then
      let k :=
        match cs.get? (i2 + 1) with
        | some s => if s = '+' ∨ s = '-' then i2 + 2 else i2 + 1
        | none => i2 + 1
      let j := digitsFrom (cs.length + 1) cs k
      if k < j then j else i2
    else i2
  | none => i2

/-- Index after the maximal `NUMBER_RE` match at `i`
(`-?(0|[1-9]\d*)(\.\d+)?([eE][-+]?\d+)?`), or `none`. -/
def matchNumber (cs : List Char) (i : Nat) : Option Nat :=
  let i1 := if cs.get? i = some '-' then i + 1 else i
  match cs.get? i1 with
  | some c =>
    if c = '0' then some (numTail cs (i1 + 1))
    else if c.isDigit then some (numTail cs (digitsFrom (cs.length + 1) cs (i1 + 1)))
    else none
  | none => none

/-- Whether the literal `lit` occurs at index `i` (Python's
`string[idx:idx+n] == lit`). -/
def matchLit (cs : List Char) (i : Nat) (lit : List Char) : Bool :=
  (cs.drop i).take lit.length == lit

/-- `dict(pairs)` key update: last value wins, first occurrence keeps its
position. -/
def dictInsert (ps : List (String × JsonValue)) (k : String) (v : JsonValue) :
    List (String × JsonValue) :=
  if ps.any (fun p => p.1 == k) then ps.map (fun p => if p.1 == k then (k, v) else p)
  else ps ++ [(k, v)]

def dictOfPairs (ps : List (String × JsonValue)) : List (String × JsonValue) :=
  ps.foldl (fun d p => dictInsert d p.1 p.2) []

/-- The five mutually recursive scanner routines at one fuel level.
Every recursive call in the scanner advances the input position, so any
fuel at least `4 * length + 8` makes the zero-fuel fallback unreachable;
the recursion is carried by `scanFns` below, structurally on the fuel,
so that the scanner reduces definitionally. -/
structure ScanFns where
  scanOnce : List Char → Nat → Except DecodeErr (JsonValue × Nat)
  parseJObject : List Char → Nat → Except DecodeErr (JsonValue × Nat)
  parseJObjectPairs : List Char → Nat → List (String × JsonValue) →
    Except DecodeErr (JsonValue × Nat)
  parseJArray : List Char → Nat → Except DecodeErr (JsonValue × Nat)
  parseJArrayItems : List Char → Nat → List JsonValue →
    Except DecodeErr (JsonValue × Nat)

/-- Out-of-fuel fallback (unreachable at the fuel `jsonLoads` supplies). -/
def scanFnsZero : ScanFns :=
  ⟨fun _ i => .error ⟨"Expecting value", i⟩,
   fun _ i => .error ⟨"Expecting value", i⟩,
   fun _ i _ => .error ⟨"Expecting value", i⟩,
   fun _ i => .error ⟨"Expecting value", i⟩,
   fun _ i _ => .error ⟨"Expecting value", i⟩⟩

/-- One level of the scanner; `p` serves the recursive calls.

`scanOnce` is `_scan_once` of `json.scanner.py_make_scanner`: a
`StopIteration idx` is rendered at once as the `Expecting value` error
`raw_decode` (and the container scanners) would turn it into.
`parseJObject` is `json.decoder.JSONObject` entered just after the `{`,
`parseJObjectPairs` its pair loop entered just after the opening quote
of the current key; `parseJArray` is `json.decoder.JSONArray` entered
just after the `[`, `parseJArrayItems` its element loop. -/
def scanFnsStep (p : ScanFns) : ScanFns :=
  ⟨ -- scanOnce
   fun cs i =>
    match cs.get? i with
    | none => .error ⟨"Expecting value", i⟩
    | some c =>
      if c = '"' then
        match scanStringAux (cs.length + 1) cs i (i + 1) [] with
        | .ok (s, e) => .ok (.str s, e)
        | .error err => .error err
      else if c = '{' then p.parseJObject cs (i + 1)
      else if c = '[' then p.parseJArray cs (i + 1)
      else if matchLit cs i ['n', 'u', 'l', 'l'] then .ok (.null, i + 4)
      else if matchLit cs i ['t', 'r', 'u', 'e'] then .ok (.bool true, i + 4)
      else if matchLit cs i ['f', 'a', 'l', 's', 'e'] then .ok (.bool false, i + 5)
      else
        match matchNumber cs i with
        | some e => .ok (.num (String.mk ((cs.drop i).take (e - i))), e)
        | none =>
          if matchLit cs i ['N', 'a', 'N'] then .ok (.num "NaN", i + 3)
          else if matchLit cs i ['I', 'n', 'f', 'i', 'n', 'i', 't', 'y'] then
            .ok (.num "Infinity", i + 8)
          else if matchLit cs i ['-', 'I', 'n', 'f', 'i', 'n', 'i', 't', 'y'] then
            .ok (.num "-Infinity", i + 9)
          else .error ⟨"Expecting value", i⟩,
   -- parseJObject
   fun cs i =>
    let j :=
      match cs.get? i with
      | some c => if c = '"' then i else if isJsonWs c then skipWs cs i else i
      | none => i
    if cs.get? j = some '"' then p.parseJObjectPairs cs (j + 1) []
    else if cs.get? j = some '}' then .ok (.obj [], j + 1)
    else .error ⟨"Expecting property name enclosed in double quotes", j⟩,
   -- parseJObjectPairs
   fun cs i acc =>
    match scanStringAux (cs.length + 1) cs (i - 1) i [] with
    | .error e => .error e
    | .ok (key, e1) =>
      let e2 := if cs.get? e1 = some ':' then e1 else skipWs cs e1
      if cs.get? e2 = some ':' then
        let e4 := skipWs cs (e2 + 1)
        match p.scanOnce cs e4 with
        | .error e => .error e
        | .ok (v, e5) =>
          let e6 := skipWs cs e5
          match cs.get? e6 with
          | some '}' => .ok (.obj (dictOfPairs (((key, v) :: acc).reverse)), e6 + 1)
          | some ',' =>
            let e7 := skipWs cs (e6 + 1)
            if cs.get? e7 = some '"' then p.parseJObjectPairs cs (e7 + 1) ((key, v) :: acc)
            else .error ⟨"Expecting property name enclosed in double quotes", e7⟩
          | _ => .error ⟨"Expecting ',' delimiter", e6⟩
      else .error ⟨"Expecting ':' delimiter", e2⟩,
   -- parseJArray
   fun cs i =>
    let j := skipWs cs i
    if cs.get? j = some ']' then .ok (.arr [], j + 1)
    else p.parseJArrayItems cs j [],
   -- parseJArrayItems
   fun cs i acc =>
    match p.scanOnce cs i with
    | .error e => .error e
    | .ok (v, e1) =>
      let e2 := skipWs cs e1
      match cs.get? e2 with
      | some ']' => .ok (.arr ((v :: acc).reverse), e2 + 1)
      | some ',' =>
        let e3 := skipWs cs (e2 + 1)
        p.parseJArrayItems cs e3 (v :: acc)
      | _ => .error ⟨"Expecting ',' delimiter", e2⟩⟩

/-- The scanner at a given fuel. -/
def scanFns : Nat → ScanFns
  | 0 => scanFnsZero
  | f + 1 => scanFnsStep (scanFns f)

def scanOnce (f : Nat) : List Char → Nat → Except DecodeErr (JsonValue × Nat) :=
  (scanFns f).scanOnce

/-- `json.loads`: `decode` = whitespace skip, `raw_decode`, whitespace
skip, `Extra data` check.  The fuel `4 * length + 8` strictly dominates
the depth of the scanner's call chain (every call advances the position
and at most three calls share one position), so the fuel-exhaustion
branches are unreachable. -/
def jsonLoads (s : String) : Except DecodeErr JsonValue :=
  let cs := s.data
  let start := skipWs cs 0
  match scanOnce (4 * cs.length + 8) cs start with
  | .error e => .error e
  | .ok (v, e) =>
    let e2 := skipWs cs e
    if e2 = cs.length then .ok v else .error ⟨"Extra data", e2⟩

/-- `doc.count('\n', 0, pos)`. -/
def countNl (cs : List Char) (pos : Nat) : Nat :=
  ((cs.take pos).filter (fun c => c == '\n')).length

/-- `doc.rfind('\n', 0, pos)` (`-1` when absent). -/
def rfindNl (cs : List Char) (pos : Nat) : Int :=
  match ((cs.take pos).reverse).findIdx? (fun c => c == '\n') with
  | some k => ((cs.take pos).length : Int) - 1 - k
  | none => -1

/-- `str(e)` of a `json.JSONDecodeError`: CPython formats
`'%s: line %d column %d (char %d)'` with `lineno = count + 1` and
`colno = pos - rfind`. -/
def DecodeErr.render (e : DecodeErr) (doc : String) : String :=
  let cs := doc.data
  let lineno := countNl cs e.pos + 1
  let colno : Int := (e.pos : Int) - rfindNl cs e.pos
  e.msg ++ ": line " ++ toString lineno ++ " column " ++ toString colno ++
    " (char " ++ toString e.pos ++ ")"

/-! ## The embedding of `process_image` (src/main.py, lines 114-128)

The function's effects on the outside world are recorded in an event
log, and the outcomes of the three fallible external steps — writing the
staged bytes, `genai.upload_file`, `chat.send_message` (including
reading `response.text`) — are drawn from an `Oracle`.  Each failing
outcome carries `str(e)` of the exception the step raised. -/

/-- Outcome of the staging step
(`tempfile.NamedTemporaryFile(delete=False, suffix='.png')` plus
`tmp_file.write`): either both succeed, or an exception is raised before
the file exists on disk, or after it does (e.g. the `write` call fails;
`delete=False` means the context manager does not remove it). -/
inductive StageOutcome where
  | ok
  | failBeforeCreate (exnStr : String)
  | failAfterCreate (exnStr : String)
deriving DecidableEq, Repr

/-- The opaque handle `genai.upload_file` returns. -/
structure RemoteFile where
  handle : String
deriving DecidableEq, Repr

/-- Outcomes of the external calls made during one `process_image`
invocation, together with the base name `tempfile` picks for the staging
file (the suffix `'.png'` is appended by the code) and the text payload
`response.text` of a successful `chat.send_message`. -/
structure Oracle where
  tmpBase : String
  stage : StageOutcome
  uploadExn : Option String
  remoteFile : RemoteFile
  sendExn : Option String
  responseText : String
deriving Repr

/-- Externally visible actions of one `process_image` invocation, in
program order. -/
inductive Event where
  | tempCreated (path : String)
  | tempWritten (path : String) (bytes : String)
  | uploadCalled (path : String) (mimeType : String)
  | tempUnlinked (path : String)
  | chatStarted
  | messageSent (file : RemoteFile) (prompt : String)
deriving DecidableEq, Repr

/-- What one `process_image` call leaves behind: the Python value it
returns, whether the staging file still exists on disk, and the log of
external actions it performed. -/
structure RunOut where
  result : JsonValue
  tmpExists : Bool
  events : List Event
deriving Repr

/-- The error dictionary built by the `except` handler:
`{"error": str(e)}`. -/
def errObj (s : String) : JsonValue := .obj [("error", .str s)]

/-- `process_image(image_file, model)` (src/main.py, lines 114-128).
The whole body runs inside one `try`, whose `except Exception` handler
returns `errObj (str e)`; `os.unlink` runs only after a successful
`genai.upload_file`, and `model.start_chat()` is plain object
construction that does not fail. -/
def process_image (imageBytes : String) (o : Oracle) : RunOut :=
  let tmpPath := o.tmpBase ++ ".png"
  match o.stage with
  | .failBeforeCreate m => ⟨errObj m, false, []⟩
  | .failAfterCreate m => ⟨errObj m, true, [.tempCreated tmpPath]⟩
  | .ok =>
    let ev := [Event.tempCreated tmpPath, .tempWritten tmpPath imageBytes,
               .uploadCalled tmpPath "image/png"]
    match o.uploadExn with
    | some m => ⟨errObj m, true, ev⟩
    | none =>
      let ev := ev ++ [Event.tempUnlinked tmpPath, .chatStarted,
                       .messageSent o.remoteFile "Analyze this image carefully."]
      match o.sendExn with
      | some m => ⟨errObj m, false, ev⟩
      | none =>
        match jsonLoads o.responseText with
        | .ok v => ⟨v, false, ev⟩
        | .error e => ⟨errObj (e.render o.responseText), false, ev⟩

/-- The stringified exception of the first step of `process_image` that
fails, `none` when every step (staging, upload, remote call, JSON
decode) succeeds.  Later steps are not reached once one fails. -/
def firstFailure (o : Oracle) : Option String :=
  match o.stage with
  | .failBeforeCreate m => some m
  | .failAfterCreate m => some m
  | .ok =>
    match o.uploadExn with
    | some m => some m
    | none =>
      match o.sendExn with
      | some m => some m
      | none =>
        match jsonLoads o.responseText with
        | .error e => some (e.render o.responseText)
        | .ok _ => none

/-! ## The embedding of `initialize_gemini` (src/main.py, lines 21-112)

`os.getenv("GEMINI_API_KEY")` and `st.secrets.get("GEMINI_API_KEY")`
each yield `Option String` (`none` when the key is absent).  `st.stop()`
raises Streamlit's control-flow exception, so a run that reaches it
produces no model handle and performs nothing further; it is embedded as
the `halted` outcome. -/

/-- The fixed system instruction string (src/main.py, lines 37-111),
verbatim: the Python raw string between `r"""` and `"""`, newlines and
indentation included. -/
def system_instruction : String :=
  "\n"
  ++ "        Please analyze the given chat image and extract the following information in JSON format:\n"
  ++ "\n"
  ++ "        - **message**: The text content of the message.\n"
  ++ "        - If the message contains both text and emojis, return the full text including emojis.\n"
  ++ "        - If the message contains only emojis, return them as they are in the \"message\" field.\n"
  ++ "\n"
  ++ "        - **timestamp**: The timestamp in ISO format (YYYY-MM-DDTHH:mm:ssZ).\n"
  ++ "        - If the timestamp is missing, return `null`.\n"
  ++ "\n"
  ++ "        - **emojis**: An array of Unicode escape sequences representing the emojis in the message.\n"
  ++ "        - Convert each emoji character to its Unicode escape sequence using **`\\uXXXX` or `\\UXXXXXXXX` format**.\n"
  ++ "        - If no emojis are present, return `null`.\n"
  ++ "\n"
  ++ "        ### **Edge Cases Handling:**\n"
  ++ "        1. If any field does not exist, set it to `null`. **Do not generate incorrect information.**  \n"
  ++ "        2. If a message consists only of emojis:\n"
  ++ "        - The \"message\" field should contain the actual emoji characters.\n"
  ++ "        - The \"emojis\" field should contain their Unicode escape sequences.  \n"
  ++ "        3. Return only the JSON object without any additional text, explanation, or formatting errors.\n"
  ++ "\n"
  ++ "        ### **Response Format Example:**\n"
  ++ "        ```\n"
  ++ "        \x7b\n"
  ++ "            \"message\": \"Hello 😊\",\n"
  ++ "            \"timestamp\": null,\n"
  ++ "            \"emojis\": [\"\\\\ud83d\\\\ude0a\"]\n"
  ++ "        \x7d\n"
  ++ "        ```\n"
  ++ "        ---\n"
  ++ "\n"
  ++ "        #### **Example 1:** (Text + Emoji)\n"
  ++ "        **Input:** `\"Hey 👋, how are you? 😊\"`  \n"
  ++ "        **Output:**\n"
  ++ "        ```\n"
  ++ "        \x7b\n"
  ++ "            \"message\": \"Hey 👋, how are you? 😊\",\n"
  ++ "            \"timestamp\": null,\n"
  ++ "            \"emojis\": [\"\\\\ud83d\\\\udc4b\", \"\\\\ud83d\\\\ude0a\"]\n"
  ++ "        \x7d\n"
  ++ "        ```\n"
  ++ "        ---\n"
  ++ "\n"
  ++ "        #### **Example 2:** (Only Emojis)\n"
  ++ "        **Input:** `\"😂🔥❤️\"`  \n"
  ++ "        **Output:**\n"
  ++ "        ```\n"
  ++ "        \x7b\n"
  ++ "            \"message\": \"😂🔥❤️\",\n"
  ++ "            \"timestamp\": null,\n"
  ++ "            \"emojis\": [\"\\\\ud83d\\\\ude02\", \"\\\\ud83d\\\\udd25\", \"\\\\u2764\"]\n"
  ++ "        \x7d\n"
  ++ "        ```\n"
  ++ "        ---\n"
  ++ "\n"
  ++ "        #### **Example 3:** (No Emoji)\n"
  ++ "        **Input:** `\"Good morning!\"`  \n"
  ++ "        **Output:**\n"
  ++ "        ```\n"
  ++ "        \x7b\n"
  ++ "            \"message\": \"Good morning!\",\n"
  ++ "            \"timestamp\": null,\n"
  ++ "            \"emojis\": null\n"
  ++ "        \x7d\n"
  ++ "        ```\n"
  ++ "\n"
  ++ "        ### **Fix Summary:**\n"
  ++ "        ✅ **Ensures proper Unicode conversion**  \n"
  ++ "        ✅ **Handles emoji-only messages correctly**  \n"
  ++ "        ✅ **Strict JSON compliance**  \n"
  ++ "        ✅ **No incorrect or malformed emoji encoding**\n"
  ++ "\n"
  ++ "\n"
  ++ "\n"
  ++ "        "

/-- The `generation_config` dictionary fixed at src/main.py lines 30-36. -/
structure GenerationConfig where
  temperature : ℚ
  top_p : ℚ
  top_k : ℕ
  max_output_tokens : ℕ
  response_mime_type : String
deriving DecidableEq, Repr

def generation_config : GenerationConfig :=
  ⟨0.25, 0.95, 40, 8192, "application/json"⟩

def model_name : String := "gemini-2.0-flash-exp"

/-- The configured `genai.GenerativeModel` handle (src/main.py,
lines 28-112). -/
structure ModelHandle where
  model_name : String
  generation_config : GenerationConfig
  system_instruction : String
deriving DecidableEq, Repr

/-- Externally visible actions of one `initialize_gemini` run. -/
inductive InitEvent where
  | errorShown (msg : String)
  | scriptStopped
  | credentialsConfigured (apiKey : String)
  | modelCreated (m : ModelHandle)
deriving DecidableEq, Repr

/-- Either the run was halted by `st.stop()` or it returned a model
handle. -/
inductive InitResult where
  | halted
  | handle (m : ModelHandle)
deriving DecidableEq, Repr

/-- Python truthiness of an `Optional[str]`: `None` and `""` are falsy. -/
def pyTruthy (s : Option String) : Bool :=
  match s with
  | none => false
  | some t => t ≠ ""

/-- Python's `a or b` on `Optional[str]` values. -/
def pyOr (a b : Option String) : Option String :=
  if pyTruthy a then a else b

/-- `initialize_gemini()` (src/main.py, lines 21-112) as a function of
the two credential sources, returning the outcome and the log of
actions. -/
def initialize_gemini (envKey secretsKey : Option String) :
    InitResult × List InitEvent :=
  match pyOr envKey secretsKey with
  | none => (.halted, [.errorShown "Please set the GEMINI_API_KEY.", .scriptStopped])
  | some k =>
    if k = "" then
      (.halted, [.errorShown "Please set the GEMINI_API_KEY.", .scriptStopped])
    else
      (.handle ⟨model_name, generation_config, system_instruction⟩,
       [.credentialsConfigured k,
        .modelCreated ⟨model_name, generation_config, system_instruction⟩])

/-! ## Claim-level notions and concrete runs -/

/-- The result shape the spec calls a "structured object": a Python dict
with exactly the keys `message`, `timestamp`, `emojis` (in any order). -/
def isThreeKeyObj (v : JsonValue) : Prop :=
  ∃ fs, v = JsonValue.obj fs ∧ (fs.map Prod.fst).Perm ["message", "timestamp", "emojis"]

/-- The result shape the spec calls an "error object": `{error: string}`. -/
def isErrorObj (v : JsonValue) : Prop :=
  ∃ s, v = errObj s

/-- A run in which staging fails before the temp file exists. -/
def oracleStageFail : Oracle :=
  ⟨"/tmp/stage01", .failBeforeCreate "disk full", none, ⟨"files/a"⟩, none, ""⟩

/-- A run in which `genai.upload_file` raises. -/
def oracleUploadFail : Oracle :=
  ⟨"/tmp/stage02", .ok, some "upload failed", ⟨"files/b"⟩, none, ""⟩

/-- A run in which `chat.send_message` raises. -/
def oracleSendFail : Oracle :=
  ⟨"/tmp/stage03", .ok, none, ⟨"files/c"⟩, some "network down", ""⟩

/-- A fully successful run whose reply is not JSON. -/
def oracleBadJson : Oracle :=
  ⟨"/tmp/stage04", .ok, none, ⟨"files/d"⟩, none, "not json"⟩

/-- A fully successful run whose reply is the well-formed JSON text of an
empty object. -/
def oracleEmptyObj : Oracle :=
  ⟨"/tmp/stage05", .ok, none, ⟨"files/e"⟩, none, "\x7b\x7d"⟩

/-- A fully successful run whose reply is the well-formed JSON text of a
bare number. -/
def oracleNumReply : Oracle :=
  ⟨"/tmp/stage06", .ok, none, ⟨"files/f"⟩, none, "5"⟩

/-- A fully successful run whose reply is a well-formed three-key reply
(the spec's "Good morning!" example). -/
def oracleGoodJson : Oracle :=
  ⟨"/tmp/stage07", .ok, none, ⟨"files/g"⟩, none,
   "\x7b\"message\": \"Good morning!\", \"timestamp\": null, \"emojis\": null\x7d"⟩

/-- Appending the final `")"` of a rendered decode error keeps the string
nonempty. -/
theorem append_rparen_ne_empty (a : String) : a ++ ")" ≠ "" := by
  intro h
  have h2 := congrArg String.length h
  rw [String.length_append] at h2
  have h3 : (")" : String).length = 1 := rfl
  have h4 : ("" : String).length = 0 := rfl
  rw [h3, h4] at h2
  omega

/-- `str(e)` of a `JSONDecodeError` is never the empty string. -/
theorem DecodeErr.render_ne_empty (e : DecodeErr) (doc : String) :
    e.render doc ≠ "" := by
  unfold DecodeErr.render
  exact append_rparen_ne_empty _

/-- The handler's `{"error": str(e)}` dictionary never has the three-key
shape. -/
theorem errObj_not_three_key (s : String) : ¬ isThreeKeyObj (errObj s) := by
  rintro ⟨fs, hfs, hperm⟩
  rw [errObj] at hfs
  cases hfs
  have := hperm.length_eq
  simp at this

/-! ## The claims -/

/-- C1: `process_image` never propagates an exception: whenever one of
the staging, upload, remote-call or JSON-decode steps fails, it returns
exactly the single flat error object `{"error": str(e)}` of the first
failing step (no error-kind distinction, no retry, no partial result),
and when every step succeeds it returns the parsed JSON value. -/
theorem process_image_flat_error_channel (img : String) (o : Oracle) :
    (∀ m, firstFailure o = some m → (process_image img o).result = errObj m) ∧
    (firstFailure o = none →
      ∃ v, jsonLoads o.responseText = Except.ok v ∧ (process_image img o).result = v) := by
  obtain ⟨b, st, up, rf, se, rt⟩ := o
  cases st <;> cases up <;> cases se <;>
    (constructor
     · intro m hm
       cases h : jsonLoads rt <;>
         simp_all [process_image, firstFailure]
     · intro hm
       cases h : jsonLoads rt <;>
         simp_all [process_image, firstFailure])

/-- C1 witness: a staging failure with `str(e) = "disk full"` produces
exactly `{"error": "disk full"}`. -/
theorem process_image_flat_error_channel_witness :
    (process_image "img" oracleStageFail).result = errObj "disk full" :=
  (process_image_flat_error_channel "img" oracleStageFail).1 "disk full" rfl

/-- C2, as stated, is false: when `genai.upload_file` raises, the
`except` handler returns `{"error": str(e)}` but `os.unlink` was never
reached, so the staging file is still on disk after the call returns. -/
theorem temp_cleanup_counterexample :
    ¬ ∀ (img : String) (o : Oracle), (process_image img o).tmpExists = false := by
  intro h
  have h2 := h "bytes" oracleUploadFail
  rw [show (process_image "bytes" oracleUploadFail).tmpExists = true from rfl] at h2
  cases h2

/-- C2 amended: the staging file does not exist after `process_image`
returns on the success path and on every failure path in which the
upload call itself succeeded; a failure in (or before) the upload call
can leave it on disk. -/
theorem temp_cleanup_after_successful_upload (img : String) (o : Oracle)
    (h1 : o.stage = .ok) (h2 : o.uploadExn = none) :
    (process_image img o).tmpExists = false := by
  obtain ⟨b, st, up, rf, se, rt⟩ := o
  cases st <;> cases up <;> cases se <;> cases h : jsonLoads rt <;>
    simp_all [process_image]

/-- C2 witness: a run whose upload succeeded and whose remote call then
failed leaves no staging file. -/
theorem temp_cleanup_after_successful_upload_witness :
    (process_image "img" oracleSendFail).tmpExists = false :=
  temp_cleanup_after_successful_upload "img" oracleSendFail rfl rfl

/-- C3, as stated, is false: `process_image` performs no schema check on
a well-formed JSON reply, so the reply `"{}"` — valid JSON — is returned
as an object with no keys at all. -/
theorem three_key_shape_counterexample :
    ¬ ∀ (img : String) (o : Oracle) (v : JsonValue),
        o.stage = .ok → o.uploadExn = none → o.sendExn = none →
        jsonLoads o.responseText = .ok v →
        isThreeKeyObj (process_image img o).result := by
  intro h
  have h2 := h "bytes" oracleEmptyObj (JsonValue.obj []) rfl rfl rfl rfl
  obtain ⟨fs, hfs, hperm⟩ := h2
  rw [show (process_image "bytes" oracleEmptyObj).result = JsonValue.obj [] from rfl] at hfs
  cases hfs
  have := hperm.length_eq
  simp at this

/-- C3 amended: for a well-formed JSON reply the parser returns the
decoded JSON value verbatim, with no schema validation; in particular
the result has exactly the keys `message`, `timestamp`, `emojis` exactly
when the decoded reply itself does. -/
theorem parsed_reply_returned_verbatim (img : String) (o : Oracle) (v : JsonValue)
    (h1 : o.stage = .ok) (h2 : o.uploadExn = none) (h3 : o.sendExn = none)
    (h4 : jsonLoads o.responseText = .ok v) :
    (process_image img o).result = v ∧
    (isThreeKeyObj (process_image img o).result ↔ isThreeKeyObj v) := by
  obtain ⟨b, st, up, rf, se, rt⟩ := o
  cases st <;> cases up <;> cases se <;> simp_all [process_image]

/-- C3 witness: the spec's "Good morning!" reply decodes to the
three-key object and is returned unchanged. -/
theorem parsed_reply_returned_verbatim_witness :
    (process_image "img" oracleGoodJson).result =
      JsonValue.obj [("message", .str "Good morning!"), ("timestamp", .null),
                     ("emojis", .null)] ∧
    (isThreeKeyObj (process_image "img" oracleGoodJson).result ↔
      isThreeKeyObj (JsonValue.obj [("message", .str "Good morning!"),
        ("timestamp", .null), ("emojis", .null)])) :=
  parsed_reply_returned_verbatim "img" oracleGoodJson _ rfl rfl rfl rfl

/-- C4: with `GEMINI_API_KEY` unset and no secret configured,
`initialize_gemini` shows the user-facing error and stops the script
(`st.stop()`, embedded as the `halted` outcome, which is not a returned
model handle), and its action log contains no credential configuration
and no model construction — nothing that could reach the network. -/
theorem missing_key_halts_flow :
    initialize_gemini none none =
      (InitResult.halted,
       [InitEvent.errorShown "Please set the GEMINI_API_KEY.", InitEvent.scriptStopped]) ∧
    (∀ k, InitEvent.credentialsConfigured k ∉ (initialize_gemini none none).2) ∧
    (∀ m, InitEvent.modelCreated m ∉ (initialize_gemini none none).2) ∧
    (∀ m, (initialize_gemini none none).1 ≠ InitResult.handle m) := by
  refine ⟨rfl, ?_, ?_, ?_⟩ <;> intro x h <;>
    simp [initialize_gemini, pyOr, pyTruthy] at h

/-- C5: when every step up to the remote call succeeds but the reply's
text payload is not valid JSON, `process_image` returns exactly
`{"error": s}` with `s` the nonempty rendered `JSONDecodeError`, and in
particular never a (partial) structured object. -/
theorem invalid_json_yields_nonempty_error (img : String) (o : Oracle) (e : DecodeErr)
    (h1 : o.stage = .ok) (h2 : o.uploadExn = none) (h3 : o.sendExn = none)
    (h4 : jsonLoads o.responseText = .error e) :
    (process_image img o).result = errObj (e.render o.responseText) ∧
    e.render o.responseText ≠ "" ∧
    ¬ isThreeKeyObj (process_image img o).result := by
  obtain ⟨b, st, up, rf, se, rt⟩ := o
  cases st <;> cases up <;> cases se <;> simp_all [process_image]
  exact ⟨DecodeErr.render_ne_empty e rt, errObj_not_three_key _⟩

/-- C5 witness: the reply `"not json"` produces
`{"error": "Expecting value: line 1 column 1 (char 0)"}`. -/
theorem invalid_json_yields_nonempty_error_witness :
    (process_image "img" oracleBadJson).result =
      errObj (DecodeErr.render ⟨"Expecting value", 0⟩ "not json") ∧
    DecodeErr.render ⟨"Expecting value", 0⟩ "not json" ≠ "" ∧
    ¬ isThreeKeyObj (process_image "img" oracleBadJson).result :=
  invalid_json_yields_nonempty_error "img" oracleBadJson ⟨"Expecting value", 0⟩
    rfl rfl rfl rfl

/-- C6, as stated, is false: the value `process_image` returns need not
belong to either variant — the fully successful reply `"5"` is valid
JSON, and the call returns the bare Python number 5, which is neither a
`{message, timestamp, emojis}` object nor an `{error: string}` object. -/
theorem result_variants_counterexample :
    ¬ ∀ (img : String) (o : Oracle),
        (isThreeKeyObj (process_image img o).result ∨
         isErrorObj (process_image img o).result) ∧
        ¬ (isThreeKeyObj (process_image img o).result ∧
           isErrorObj (process_image img o).result) := by
  intro h
  obtain ⟨hd, -⟩ := h "bytes" oracleNumReply
  rw [show (process_image "bytes" oracleNumReply).result = JsonValue.num "5" from rfl] at hd
  rcases hd with ⟨fs, hfs, -⟩ | ⟨s, hs⟩
  · cases hfs
  · rw [errObj] at hs
    cases hs

/-- C6 amended: every returned value is either the JSON value decoded
from the reply (arbitrary, unvalidated — it need not have the three-key
shape and may itself be an `{error: string}` object, so the two variants
are not structurally exclusive) or the handler's `{error: string}`
object. -/
theorem result_is_decoded_reply_or_error (img : String) (o : Oracle) :
    (∃ s, (process_image img o).result = errObj s) ∨
    (∃ v, jsonLoads o.responseText = Except.ok v ∧ (process_image img o).result = v) := by
  obtain ⟨b, st, up, rf, se, rt⟩ := o
  cases st <;> cases up <;> cases se <;>
    first
    | exact Or.inl ⟨_, rfl⟩
    | (cases h : jsonLoads rt
       · next e => exact Or.inl ⟨e.render rt, by simp [process_image, h]⟩
       · next v => exact Or.inr ⟨v, rfl, by simp [process_image, h]⟩)

/-- C7: every upload call `process_image` logs declares the MIME type
`image/png`, whatever the image bytes were; the staging path is always
the generated temp name with the fixed suffix `.png`; and whenever
staging succeeds the upload call is actually made with exactly those
arguments. -/
theorem upload_declares_png_mime (img : String) (o : Oracle) :
    (∀ p m, Event.uploadCalled p m ∈ (process_image img o).events →
      m = "image/png" ∧ p = o.tmpBase ++ ".png") ∧
    (∀ p, Event.tempCreated p ∈ (process_image img o).events →
      p = o.tmpBase ++ ".png") ∧
    (o.stage = .ok →
      Event.uploadCalled (o.tmpBase ++ ".png") "image/png" ∈ (process_image img o).events) := by
  obtain ⟨b, st, up, rf, se, rt⟩ := o
  cases st <;> cases up <;> cases se <;> cases h : jsonLoads rt <;>
    refine ⟨?_, ?_, ?_⟩ <;> intro x <;>
      simp_all [process_image]

/-- C7 witness: a concrete run through the upload call. -/
theorem upload_declares_png_mime_witness :
    ("image/png" = "image/png" ∧
      oracleUploadFail.tmpBase ++ ".png" = oracleUploadFail.tmpBase ++ ".png") ∧
    Event.uploadCalled (oracleUploadFail.tmpBase ++ ".png") "image/png" ∈
      (process_image "b" oracleUploadFail).events :=
  ⟨(upload_declares_png_mime "b" oracleUploadFail).1 _ _ (by decide),
   (upload_declares_png_mime "b" oracleUploadFail).2.2 rfl⟩

/-- C8: credential resolution takes the environment variable when it is
truthy and consults the secrets store only otherwise; whenever the
resolved key is nonempty, the run configures the process-wide
credentials with that key and returns the handle bound to the fixed
`GenerationConfig` and `SystemInstruction`. -/
theorem credential_resolution_order (envKey secretsKey : Option String) :
    (pyTruthy envKey = true → pyOr envKey secretsKey = envKey) ∧
    (pyTruthy envKey = false → pyOr envKey secretsKey = secretsKey) ∧
    (∀ k, pyOr envKey secretsKey = some k → k ≠ "" →
      initialize_gemini envKey secretsKey =
        (InitResult.handle ⟨model_name, generation_config, system_instruction⟩,
         [InitEvent.credentialsConfigured k,
          InitEvent.modelCreated ⟨model_name, generation_config, system_instruction⟩])) := by
  refine ⟨?_, ?_, ?_⟩
  · intro h
    simp [pyOr, h]
  · intro h
    simp [pyOr, h]
  · intro k hk hne
    unfold initialize_gemini
    rw [hk]
    simp [hne]

/-- C8 witness: a truthy environment key wins over an absent secret and
yields the configured handle. -/
theorem credential_resolution_order_witness :
    initialize_gemini (some "k1") none =
      (InitResult.handle ⟨model_name, generation_config, system_instruction⟩,
       [InitEvent.credentialsConfigured "k1",
        InitEvent.modelCreated ⟨model_name, generation_config, system_instruction⟩]) :=
  (credential_resolution_order (some "k1") none).2.2 "k1" rfl (by decide)

/-- C9: an empty `GEMINI_API_KEY` environment value is falsy under
Python's `or`, so `initialize_gemini` behaves exactly as if the variable
were unset — the secrets store is consulted, and when it too yields
nothing (or an empty key) the run halts. -/
theorem empty_env_key_is_unset (secretsKey : Option String) :
    initialize_gemini (some "") secretsKey = initialize_gemini none secretsKey ∧
    ((secretsKey = none ∨ secretsKey = some "") →
      initialize_gemini (some "") secretsKey =
        (InitResult.halted,
         [InitEvent.errorShown "Please set the GEMINI_API_KEY.", InitEvent.scriptStopped])) := by
  constructor
  · cases secretsKey <;> rfl
  · rintro (h | h) <;> subst h <;> rfl

/-- C9 witness: empty environment key and no secret halt the flow. -/
theorem empty_env_key_is_unset_witness :
    initialize_gemini (some "") none =
      (InitResult.halted,
       [InitEvent.errorShown "Please set the GEMINI_API_KEY.", InitEvent.scriptStopped]) :=
  (empty_env_key_is_unset none).2 (Or.inl rfl)

/-- C10: whenever the upload call succeeds, the staging file is unlinked
before the chat session is opened and the message is sent (the event log
contains unlink, then chat start, then send, in that order), and the
file is gone after the call; conversely the staging file can remain on
disk only when staging failed after creating it or the upload call
itself raised. -/
theorem unlink_precedes_chat (img : String) (o : Oracle) :
    (o.stage = .ok → o.uploadExn = none →
      (process_image img o).tmpExists = false ∧
      List.Sublist
        [Event.tempUnlinked (o.tmpBase ++ ".png"), Event.chatStarted,
         Event.messageSent o.remoteFile "Analyze this image carefully."]
        (process_image img o).events) ∧
    ((process_image img o).tmpExists = true →
      (∃ m, o.stage = .failAfterCreate m) ∨
      (o.stage = .ok ∧ ∃ m, o.uploadExn = some m)) := by
  obtain ⟨b, st, up, rf, se, rt⟩ := o
  constructor
  · intro h1 h2
    cases h1
    cases h2
    have hsub :
        List.Sublist
          [Event.tempUnlinked (b ++ ".png"), Event.chatStarted,
           Event.messageSent rf "Analyze this image carefully."]
          [Event.tempCreated (b ++ ".png"), Event.tempWritten (b ++ ".png") img,
           Event.uploadCalled (b ++ ".png") "image/png",
           Event.tempUnlinked (b ++ ".png"), Event.chatStarted,
           Event.messageSent rf "Analyze this image carefully."] :=
      ((List.Sublist.refl _).cons _).cons _ |>.cons _
    cases se <;> cases h : jsonLoads rt <;>
      exact ⟨by simp [process_image, h], by simpa [process_image, h] using hsub⟩
  · intro h
    cases st with
    | failBeforeCreate m => cases h
    | failAfterCreate m => exact Or.inl ⟨m, rfl⟩
    | ok =>
      cases up with
      | some m => exact Or.inr ⟨rfl, m, rfl⟩
      | none =>
        refine absurd h ?_
        cases se <;> cases hj : jsonLoads rt <;> simp [process_image, hj]

/-- C10 witness: a run whose upload succeeded but whose remote call then
failed still unlinked the staging file before the chat was opened. -/
theorem unlink_precedes_chat_witness :
    (process_image "img" oracleSendFail).tmpExists = false ∧
    List.Sublist
      [Event.tempUnlinked (oracleSendFail.tmpBase ++ ".png"), Event.chatStarted,
       Event.messageSent oracleSendFail.remoteFile "Analyze this image carefully."]
      (process_image "img" oracleSendFail).events :=
  (unlink_precedes_chat "img" oracleSendFail).1 rfl rfl

end ChatImage
